import Mathlib

/-!
Shallow embedding of the progress-tracking core of `bevy_progress_tracking`
(`src/lib.rs`).  The `usize` counters are modelled as unbounded naturals
(the source states no upper bound and no claim concerns overflow).  The
`f32` result of `Progress::progress` is modelled by `FloatVal`: a rational
for finite values plus distinguished NaN and +infinity points, with
division and `f32::min` given Rust/IEEE-754 semantics (`0/0 = NaN`,
`x/0 = +inf` for `x > 0`, and `min` returning the other operand when one
is NaN).  Rounding of finite values is abstracted: finite quotients are
exact rationals.
-/

namespace BevyProgress

/-- Mirror of the private struct `TaskProgress { tasks: usize, done: usize }`. -/
structure TaskProgress where
  tasks : Nat
  done : Nat
deriving DecidableEq, Repr

/-- Mirror of `TaskProgress::default()`: both counters zero. -/
def TaskProgress.default : TaskProgress := ⟨0, 0⟩

/-- Mirror of `TaskProgress::track` (release build): `self.tasks += tasks; self.done += done`. -/
def TaskProgress.track (p : TaskProgress) (tasks done : Nat) : TaskProgress :=
  ⟨p.tasks + tasks, p.done + done⟩

/-- Mirror of `TaskProgress::track` in a debug build: after the additions,
`debug_assert!(self.tasks >= self.done)` panics (modelled as `none`) when
the updated pair has more done tasks than tasks. -/
def TaskProgress.trackDebug (p : TaskProgress) (tasks done : Nat) : Option TaskProgress :=
  let q := p.track tasks done
  if q.done ≤ q.tasks then some q else none

/-- Mirror of the public enum `Task`. -/
inductive Task where
  | Done
  | InProgress
deriving DecidableEq, Repr

/-- Mirror of `TaskProgress::task`: `track(1, 1)` for `Done`, `track(1, 0)` otherwise. -/
def TaskProgress.task (p : TaskProgress) (t : Task) : TaskProgress :=
  if t = Task.Done then p.track 1 1 else p.track 1 0

/-- Mirror of `TaskProgress::clear`: both counters set to zero. -/
def TaskProgress.clear (_ : TaskProgress) : TaskProgress := ⟨0, 0⟩

/-- Mirror of the public struct `Progress` (the zero-sized `PhantomData`
type tag is dropped: it has no runtime content). -/
structure Progress where
  current : TaskProgress
  previous : TaskProgress
  persisted : TaskProgress
deriving DecidableEq, Repr

/-- Mirror of `Progress::default()`: all three pairs zero. -/
def Progress.default : Progress := ⟨⟨0, 0⟩, ⟨0, 0⟩, ⟨0, 0⟩⟩

/-- Mirror of `Progress::track`: plain additions on `current` only; note the
source does NOT route this through `TaskProgress::track`, so no debug
assertion is involved here in any build. -/
def Progress.track (p : Progress) (tasks done : Nat) : Progress :=
  { p with current := ⟨p.current.tasks + tasks, p.current.done + done⟩ }

/-- Mirror of `Progress::finish_frame`: re-apply the persisted pair via
`self.track`, copy `current` into `previous`, then clear `current`. -/
def Progress.finish_frame (p : Progress) : Progress :=
  let p1 := p.track p.persisted.tasks p.persisted.done
  let p2 := { p1 with previous := p1.current }
  { p2 with current := p2.current.clear }

/-- Mirror of `Progress::task`: delegates to `TaskProgress::task` on `current`. -/
def Progress.task (p : Progress) (t : Task) : Progress :=
  { p with current := p.current.task t }

/-- Model of an `f32` value as produced by `Progress::progress`: NaN,
positive infinity, or a finite value (kept as an exact rational). -/
inductive FloatVal where
  | nan
  | inf
  | val (q : ℚ)
deriving DecidableEq

/-- Model of `a as f32 / b as f32` for nonnegative integers: `0/0` is NaN,
`x/0` with `x > 0` is +infinity, otherwise the exact rational quotient. -/
def fdiv (a b : Nat) : FloatVal :=
  if b = 0 then (if a = 0 then FloatVal.nan else FloatVal.inf) else
    FloatVal.val ((a : ℚ) / (b : ℚ))

/-- Model of Rust `x.min(1.0)` on `f32`: `f32::min` returns the other
operand when one is NaN, so `NaN.min(1.0) = 1.0`; `inf.min(1.0) = 1.0`;
finite values are clamped to at most 1. -/
def fmin1 : FloatVal → FloatVal
  | FloatVal.nan => FloatVal.val 1
  | FloatVal.inf => FloatVal.val 1
  | FloatVal.val q => FloatVal.val (min q 1)

/-- Mirror of `Progress::progress`:
`(self.previous.done as f32 / self.previous.tasks as f32).min(1.0)`. -/
def Progress.progress (p : Progress) : FloatVal :=
  fmin1 (fdiv p.previous.done p.previous.tasks)

/-- True exactly on finite numeric values of the float model. -/
def FloatVal.isFiniteNum : FloatVal → Bool
  | FloatVal.val _ => true
  | _ => false

/-- Mirror of `Progress::persist_done_tasks` (release build):
`self.persisted.track(done, done)`. -/
def Progress.persist_done_tasks (p : Progress) (done : Nat) : Progress :=
  { p with persisted := p.persisted.track done done }

/-- Mirror of `Progress::persist_done` (release build):
`self.persisted.track(0, done)`. -/
def Progress.persist_done (p : Progress) (done : Nat) : Progress :=
  { p with persisted := p.persisted.track 0 done }

/-- Mirror of `Progress::persist_tasks` (release build):
`self.persisted.track(tasks, 0)`. -/
def Progress.persist_tasks (p : Progress) (tasks : Nat) : Progress :=
  { p with persisted := p.persisted.track tasks 0 }

/-- Mirror of `Progress::persist_done` in a debug build, where the
`debug_assert!` inside `TaskProgress::track` can panic (`none`). -/
def Progress.persist_done_debug (p : Progress) (done : Nat) : Option Progress :=
  (p.persisted.trackDebug 0 done).map fun q => { p with persisted := q }

/-- Mirror of `Progress::persist_tasks` in a debug build. -/
def Progress.persist_tasks_debug (p : Progress) (tasks : Nat) : Option Progress :=
  (p.persisted.trackDebug tasks 0).map fun q => { p with persisted := q }

/-- Mirror of `Progress::persist_done_tasks` in a debug build. -/
def Progress.persist_done_tasks_debug (p : Progress) (done : Nat) : Option Progress :=
  (p.persisted.trackDebug done done).map fun q => { p with persisted := q }

/-- Mirror of `Progress::clear`: clears all three pairs. -/
def Progress.clear (p : Progress) : Progress :=
  ⟨p.current.clear, p.previous.clear, p.persisted.clear⟩

/-- Claim C1: `finish_frame` first adds `persisted.tasks` to `current.tasks`
and `persisted.done` to `current.done`, then overwrites `previous` wholesale
with the resulting `current` pair, then resets `current` to `(0, 0)`. -/
theorem finish_frame_steps (p : Progress) :
    p.finish_frame =
      { current := ⟨0, 0⟩,
        previous := ⟨p.current.tasks + p.persisted.tasks, p.current.done + p.persisted.done⟩,
        persisted := p.persisted } := rfl

/-- Claim C2: from a fresh ledger, after `persist_done_tasks(42)`, two
successive `finish_frame` calls each yield `progress() = 1.0`, and each
snapshot is exactly `(tasks = 42, done = 42)`, not accumulated across
cycles. -/
theorem persisted_baseline_full_progress :
    ((Progress.default.persist_done_tasks 42).finish_frame.progress = FloatVal.val 1 ∧
     (Progress.default.persist_done_tasks 42).finish_frame.previous = ⟨42, 42⟩) ∧
    ((Progress.default.persist_done_tasks 42).finish_frame.finish_frame.progress
        = FloatVal.val 1 ∧
     (Progress.default.persist_done_tasks 42).finish_frame.finish_frame.previous
        = ⟨42, 42⟩) := by
  refine ⟨⟨?_, rfl⟩, ⟨?_, rfl⟩⟩ <;>
    simp [Progress.progress, Progress.finish_frame, Progress.persist_done_tasks,
      Progress.default, Progress.track, TaskProgress.track, TaskProgress.clear,
      fdiv, fmin1]

/-- Counterexample for claim C3: the fresh ledger has `previous.tasks = 0`,
yet `progress()` is the finite numeric value `1.0`, not a non-numeric or
infinite result — the `min(1.0)` clamp turns the NaN of `0.0 / 0.0` into
`1.0`, because Rust `f32::min` returns the other operand when one is NaN. -/
theorem zero_tasks_progress_cex :
    Progress.default.previous.tasks = 0 ∧
    Progress.default.progress = FloatVal.val 1 ∧
    Progress.default.progress.isFiniteNum = true ∧
    Progress.default.progress ≠ FloatVal.nan ∧
    Progress.default.progress ≠ FloatVal.inf := by
  refine ⟨rfl, rfl, rfl, ?_, ?_⟩ <;> simp [Progress.progress, Progress.default, fdiv, fmin1]

/-- Claim C3 (amended): whenever `previous.tasks = 0`, the unguarded raw
division produces NaN (when `previous.done = 0`) or +infinity (otherwise),
but the trailing `min(1.0)` maps both to `1.0`, so `progress()` itself
returns the finite numeric value `1.0`. -/
theorem zero_tasks_division_unguarded (p : Progress) (h : p.previous.tasks = 0) :
    (fdiv p.previous.done p.previous.tasks = FloatVal.nan ∨
     fdiv p.previous.done p.previous.tasks = FloatVal.inf) ∧
    p.progress = FloatVal.val 1 := by
  constructor
  · by_cases hd : p.previous.done = 0
    · exact Or.inl (by simp [fdiv, h, hd])
    · exact Or.inr (by simp [fdiv, h, hd])
  · by_cases hd : p.previous.done = 0 <;>
      simp [Progress.progress, fdiv, fmin1, h, hd]

/-- Witness for `zero_tasks_division_unguarded` at the fresh ledger. -/
theorem zero_tasks_division_unguarded_witness :
    (fdiv Progress.default.previous.done Progress.default.previous.tasks = FloatVal.nan ∨
     fdiv Progress.default.previous.done Progress.default.previous.tasks = FloatVal.inf) ∧
    Progress.default.progress = FloatVal.val 1 :=
  zero_tasks_division_unguarded Progress.default rfl

/-- Claim C4: whenever `previous.tasks > 0`, `progress()` is the rational
quotient `previous.done / previous.tasks` clamped to at most 1; in
particular when `previous.done` exceeds `previous.tasks` the result is
exactly `1.0`, never more. -/
theorem progress_clamped (p : Progress) (h : 0 < p.previous.tasks) :
    p.progress =
      FloatVal.val (min ((p.previous.done : ℚ) / (p.previous.tasks : ℚ)) 1) ∧
    (p.previous.tasks < p.previous.done → p.progress = FloatVal.val 1) := by
  have htz : p.previous.tasks ≠ 0 := Nat.pos_iff_ne_zero.mp h
  refine ⟨by simp [Progress.progress, fdiv, fmin1, htz], fun hlt => ?_⟩
  have hq : (1 : ℚ) ≤ (p.previous.done : ℚ) / (p.previous.tasks : ℚ) := by
    rw [le_div_iff₀ (by exact_mod_cast h)]
    simpa using (by exact_mod_cast hlt.le : (p.previous.tasks : ℚ) ≤ (p.previous.done : ℚ))
  simp [Progress.progress, fdiv, fmin1, htz, min_eq_right hq]

/-- Witness for `progress_clamped` at a ledger whose snapshot is
`(tasks = 2, done = 3)`. -/
theorem progress_clamped_witness :
    (Progress.mk ⟨0, 0⟩ ⟨2, 3⟩ ⟨0, 0⟩).progress =
      FloatVal.val (min (((3 : Nat) : ℚ) / ((2 : Nat) : ℚ)) 1) ∧
    ((2 : Nat) < 3 → (Progress.mk ⟨0, 0⟩ ⟨2, 3⟩ ⟨0, 0⟩).progress = FloatVal.val 1) :=
  progress_clamped (Progress.mk ⟨0, 0⟩ ⟨2, 3⟩ ⟨0, 0⟩) (by decide)

/-- Counterexample for claim C5: the claim ranges over all `d ≤ t`
including `t = d = 0`, but there `registerTasks(0, 0)` then `finishCycle()`
gives `progress() = 1.0` (the clamped NaN of `0/0`), which is not the
quotient `d / t` in any sense — the raw division at `(0, 0)` is NaN. -/
theorem progress_ratio_cex :
    (0 : Nat) ≤ 0 ∧
    (Progress.default.track 0 0).finish_frame.progress = FloatVal.val 1 ∧
    fdiv 0 0 = FloatVal.nan ∧
    FloatVal.val 1 ≠ FloatVal.nan := by
  refine ⟨le_refl 0, rfl, rfl, by simp⟩

/-- Claim C5 (amended): for `0 < t` and `d ≤ t`, after `registerTasks(t, d)`
then `finishCycle()` on a fresh ledger, `progress()` is exactly the
rational quotient `d / t` (rounding abstracted). -/
theorem progress_ratio (t d : Nat) (ht : 0 < t) (hd : d ≤ t) :
    (Progress.default.track t d).finish_frame.progress =
      FloatVal.val ((d : ℚ) / (t : ℚ)) := by
  have htz : t ≠ 0 := Nat.pos_iff_ne_zero.mp ht
  have hq : (d : ℚ) / (t : ℚ) ≤ 1 := by
    rw [div_le_one (by exact_mod_cast ht)]
    exact_mod_cast hd
  simp [Progress.progress, Progress.finish_frame, Progress.track, Progress.default,
    TaskProgress.clear, fdiv, fmin1, htz, min_eq_left hq]

/-- Witness for `progress_ratio` at `t = 2`, `d = 1`. -/
theorem progress_ratio_witness :
    (Progress.default.track 2 1).finish_frame.progress =
      FloatVal.val (((1 : Nat) : ℚ) / ((2 : Nat) : ℚ)) :=
  progress_ratio 2 1 (by decide) (by decide)

/-- Claim C6: on every ledger state, `task(Done)` produces the same state
as `track(1, 1)`, and `task(InProgress)` the same state as `track(1, 0)`. -/
theorem task_equiv_track (p : Progress) :
    p.task Task.Done = p.track 1 1 ∧ p.task Task.InProgress = p.track 1 0 :=
  ⟨rfl, rfl⟩

/-- Claim C7: `track` mutates only `current`; `previous` and `persisted`
are untouched, hence `progress()` (which reads only `previous`) is
unchanged — so registrations after a `finish_frame` do not affect the
snapshot or the reported ratio until the next `finish_frame`. -/
theorem track_mutates_current_only (p : Progress) (tasks done : Nat) :
    (p.track tasks done).previous = p.previous ∧
    (p.track tasks done).persisted = p.persisted ∧
    (p.track tasks done).progress = p.progress ∧
    (p.finish_frame.track tasks done).previous = p.finish_frame.previous ∧
    (p.finish_frame.track tasks done).progress = p.finish_frame.progress :=
  ⟨rfl, rfl, rfl, rfl, rfl⟩

/-- Claim C8: `finish_frame` leaves `persisted` unchanged; neither `track`
nor `task` touches it, and the three persist operations are exactly the
additive updates on `persisted` — nothing else modifies or resets it
during a normal cycle finalize. -/
theorem finish_frame_preserves_persisted (p : Progress) (t d : Nat) (tk : Task) :
    p.finish_frame.persisted = p.persisted ∧
    (p.track t d).persisted = p.persisted ∧
    (p.task tk).persisted = p.persisted ∧
    (p.persist_tasks t).persisted = p.persisted.track t 0 ∧
    (p.persist_done d).persisted = p.persisted.track 0 d ∧
    (p.persist_done_tasks d).persisted = p.persisted.track d d :=
  ⟨rfl, rfl, rfl, rfl, rfl, rfl⟩

/-- Claim C9: the public `Progress::track` performs plain additions on
`current` and is total in every build — it never reaches the debug
assertion of the internal `TaskProgress::track` because it does not call
it; even on an input where the internal checked version would panic
(`trackDebug` returns `none`, e.g. adding `0` tasks and `1` done to a
fresh pair), the public `track` produces the plain-addition state. -/
theorem track_bypasses_debug_assert (p : Progress) (tasks done : Nat) :
    p.track tasks done = { p with current := p.current.track tasks done } ∧
    TaskProgress.trackDebug Progress.default.current 0 1 = none ∧
    Progress.default.track 0 1 = { Progress.default with current := ⟨0, 1⟩ } :=
  ⟨rfl, rfl, rfl⟩

/-- Claim C10: in a debug build, `persist_done(d)` panics exactly when
`persisted.done + d` exceeds `persisted.tasks`; in particular it panics for
every `d > 0` on a fresh ledger; and from any state with
`persisted.done ≤ persisted.tasks`, neither `persist_tasks` nor
`persist_done_tasks` can trip the assertion. -/
theorem persist_done_debug_assert (p : Progress) (d t n : Nat) (hd : 0 < d)
    (hinv : p.persisted.done ≤ p.persisted.tasks) :
    (p.persist_done_debug d = none ↔ p.persisted.tasks < p.persisted.done + d) ∧
    Progress.default.persist_done_debug d = none ∧
    (p.persist_tasks_debug t).isSome = true ∧
    (p.persist_done_tasks_debug n).isSome = true := by
  refine ⟨?_, ?_, ?_, ?_⟩
  · simp [Progress.persist_done_debug, TaskProgress.trackDebug, TaskProgress.track]
  · simp [Progress.persist_done_debug, Progress.default, TaskProgress.trackDebug,
      TaskProgress.track]
    omega
  · simp [Progress.persist_tasks_debug, TaskProgress.trackDebug, TaskProgress.track]
    omega
  · simp [Progress.persist_done_tasks_debug, TaskProgress.trackDebug, TaskProgress.track]
    omega

/-- Witness for `persist_done_debug_assert` at the fresh ledger with
`d = 1`, `t = 2`, `n = 3`. -/
theorem persist_done_debug_assert_witness :
    (Progress.default.persist_done_debug 1 = none ↔
      Progress.default.persisted.tasks < Progress.default.persisted.done + 1) ∧
    Progress.default.persist_done_debug 1 = none ∧
    (Progress.default.persist_tasks_debug 2).isSome = true ∧
    (Progress.default.persist_done_tasks_debug 3).isSome = true :=
  persist_done_debug_assert Progress.default 1 2 3 (by decide) (by decide)

end BevyProgress
